import Mathlib

/-!
Shallow embedding of the data-cleaning, filtering and aggregation pipeline of
`leyid.py` (InnovaChile Corfo dashboard).  Pure functions below mirror the
pandas operations the script performs on the loaded table:

* header normalization (`df.columns.str.strip().str.replace(" ", "_").str.upper()`),
* currency coercion (`pd.to_numeric(df[col].astype(str).str.replace(r"[^\d.]", "", regex=True), errors="coerce")`),
* the filter mask (`df_filtrado`), the available option lists
  (`años_disponibles`, `regiones_disponibles`, `sectores_disponibles`),
* the aggregates (`total_proyectos`, `inversion_innova`, `inversion_privada`)
  and the empty-result short circuit (`st.warning` + `st.stop`).

Numeric cell values are represented exactly as rationals; a pandas `NaN`
cell is `Option.none`.
-/

namespace Leyid

/-- One application of `str.strip()`: drop leading and trailing whitespace. -/
def trimChars (cs : List Char) : List Char :=
  ((cs.dropWhile Char.isWhitespace).reverse.dropWhile Char.isWhitespace).reverse

/-- Line 31 of `leyid.py`:
`df.columns.str.strip().str.replace(" ", "_").str.upper()` applied to one
raw header. -/
def normalizeHeader (s : String) : String :=
  String.mk (((trimChars s.data).map (fun c => if c = ' ' then '_' else c)).map Char.toUpper)

/-- The character filter of `str.replace(r"[^\d.]", "", regex=True)`:
keep exactly the digits and the dots. -/
def stripNonNumeric (cs : List Char) : List Char :=
  cs.filter (fun c => c.isDigit || c == '.')

/-- Decimal value of a digit string. -/
def natFromDigits (cs : List Char) : ℕ :=
  cs.foldl (fun a c => 10 * a + (c.toNat - 48)) 0

/-- `pd.to_numeric(x, errors="coerce")` restricted to the alphabet the strip
leaves behind: a string of digits and dots parses as a floating-point literal
iff it has at least one digit and at most one dot (the dot read as the decimal
point); anything else coerces to `NaN` (here `none`). -/
def parseStripped (cs : List Char) : Option ℚ :=
  if (∀ c ∈ cs, c.isDigit = true ∨ c = '.') ∧ (∃ c ∈ cs, c.isDigit = true) ∧
      cs.count '.' ≤ 1 then
    some ((natFromDigits (cs.takeWhile (fun c => c != '.')) : ℚ) +
      (natFromDigits ((cs.dropWhile (fun c => c != '.')).drop 1) : ℚ) /
        (10 : ℚ) ^ ((cs.dropWhile (fun c => c != '.')).drop 1).length)
  else none

/-- Lines 47–50 of `leyid.py`: coercion of one cell of a currency-like column
(`FINANCIAMIENTO_INNOVA`, `APROBADO_PRIVADO_PECUNIARIO`, `MONTO_CERTIFICADO_LEY`):
strip every character that is not a digit or a dot, then parse numerically,
unparsable values becoming `NaN`. -/
def coerceCurrency (s : String) : Option ℚ :=
  parseStripped (stripNonNumeric s.data)

/-- The whole-column form of the coercion (`df[col] = pd.to_numeric(...)`). -/
def cleanFloatColumn (vs : List String) : List (Option ℚ) :=
  vs.map coerceCurrency

/-- One row of the loaded table, restricted to the columns the dashboard
reads.  `AÑO_ADJUDICACION` is cleaned with `.fillna(0).astype(int)` and so is
never null; the string columns and the currency columns can hold `NaN`. -/
structure Row where
  «AÑO_ADJUDICACION» : Int
  REGION : Option String
  SECTOR_ECONOMICO : Option String
  FINANCIAMIENTO_INNOVA : Option ℚ
  APROBADO_PRIVADO : Option ℚ
deriving DecidableEq

/-- The state of the sidebar filters: the slider tuple `año_seleccionado`
and the multiselect lists `region_seleccionada`, `sector_seleccionado`. -/
structure FilterCriteria where
  lo : Int
  hi : Int
  regiones : List String
  sectores : List String
deriving DecidableEq

/-- `Series.isin(sel)` for one cell of a string column: a `NaN` cell is never
a member of a list of strings. -/
def isin (o : Option String) (sel : List String) : Bool :=
  match o with
  | none => false
  | some s => sel.contains s

/-- Lines 100–105 of `leyid.py`: the boolean-mask selection
`df[(AÑO ≥ lo) & (AÑO ≤ hi) & REGION.isin(regiones) & SECTOR.isin(sectores)]`. -/
def df_filtrado (df : List Row) (c : FilterCriteria) : List Row :=
  df.filter (fun r =>
    decide (c.lo ≤ r.«AÑO_ADJUDICACION») && decide (r.«AÑO_ADJUDICACION» ≤ c.hi) &&
    isin r.REGION c.regiones && isin r.SECTOR_ECONOMICO c.sectores)

/-- Line 75: `sorted(df["AÑO_ADJUDICACION"].unique())`. -/
def «años_disponibles» (df : List Row) : List Int :=
  List.insertionSort (· ≤ ·) (df.map Row.«AÑO_ADJUDICACION»).dedup

/-- Line 84: `sorted(df["REGION"].dropna().unique())`. -/
def regiones_disponibles (df : List Row) : List String :=
  List.insertionSort (· ≤ ·) (df.filterMap Row.REGION).dedup

/-- Line 92: `sorted(df["SECTOR_ECONOMICO"].dropna().unique())`. -/
def sectores_disponibles (df : List Row) : List String :=
  List.insertionSort (· ≤ ·) (df.filterMap Row.SECTOR_ECONOMICO).dedup

/-- Python `min` over a nonempty list (the `[]` default is never reached by
the script, which only calls it after a successful load). -/
def listMin (l : List Int) : Int :=
  match l with
  | [] => 0
  | x :: xs => xs.foldl min x

/-- Python `max` over a nonempty list. -/
def listMax (l : List Int) : Int :=
  match l with
  | [] => 0
  | x :: xs => xs.foldl max x

/-- The default sidebar selection: slider at
`(min(años_disponibles), max(años_disponibles))`, both multiselects at their
full option lists. -/
def fullCriteria (df : List Row) : FilterCriteria :=
  { lo := listMin («años_disponibles» df)
    hi := listMax («años_disponibles» df)
    regiones := regiones_disponibles df
    sectores := sectores_disponibles df }

/-- Line 114: `df_filtrado.shape[0]`. -/
def total_proyectos (df : List Row) : ℕ := df.length

/-- Line 115: `df_filtrado["FINANCIAMIENTO_INNOVA"].sum()` (pandas skips
`NaN` when summing). -/
def inversion_innova (df : List Row) : ℚ :=
  (df.filterMap Row.FINANCIAMIENTO_INNOVA).sum

/-- Line 116: `df_filtrado["APROBADO_PRIVADO_PECUNIARIO"].sum()`. -/
def inversion_privada (df : List Row) : ℚ :=
  (df.filterMap Row.APROBADO_PRIVADO).sum

/-- What one recompute pass produces after the filter step: either the
empty-result warning (`st.warning` then `st.stop`, so no metrics, charts,
table or export), or the rendered aggregates. -/
inductive PassOutcome where
  | warnEmpty : PassOutcome
  | rendered : ℕ → ℚ → ℚ → PassOutcome
deriving DecidableEq

/-- Lines 107–116 of `leyid.py` as one function: apply the filters, stop with
a warning when the result is empty, otherwise render the aggregates.  The
loaded table is returned unchanged alongside the outcome: the script never
writes to `df` after the cleaning step. -/
def runPass (df : List Row) (c : FilterCriteria) : List Row × PassOutcome :=
  if (df_filtrado df c).isEmpty then
    (df, PassOutcome.warnEmpty)
  else
    (df, PassOutcome.rendered (total_proyectos (df_filtrado df c))
      (inversion_innova (df_filtrado df c)) (inversion_privada (df_filtrado df c)))

/-- The per-session state the script owns between interactions. -/
structure AppState where
  df : List Row
deriving DecidableEq

/-- The filter step seen from the session state: boolean-mask selection
builds a new frame and leaves the loaded one as it was. -/
def filterStep (st : AppState) (c : FilterCriteria) : AppState × List Row :=
  (st, df_filtrado st.df c)

/-! ### Helper lemmas -/

lemma foldl_min_le_init (xs : List Int) (a : Int) : xs.foldl min a ≤ a := by
  induction xs generalizing a with
  | nil => simp
  | cons y ys ih => exact le_trans (ih (min a y)) (min_le_left a y)

lemma foldl_min_le_mem : ∀ (xs : List Int) (a x : Int), x ∈ xs → xs.foldl min a ≤ x := by
  intro xs
  induction xs with
  | nil => intro a x hx; cases hx
  | cons y ys ih =>
    intro a x hx
    rcases List.mem_cons.mp hx with h | h
    · subst h
      exact le_trans (foldl_min_le_init ys (min a x)) (min_le_right a x)
    · exact ih (min a y) x h

lemma listMin_le (l : List Int) (x : Int) (hx : x ∈ l) : listMin l ≤ x := by
  match l with
  | [] => cases hx
  | y :: ys =>
    rcases List.mem_cons.mp hx with h | h
    · subst h; exact foldl_min_le_init ys x
    · exact foldl_min_le_mem ys y x h

lemma init_le_foldl_max (xs : List Int) (a : Int) : a ≤ xs.foldl max a := by
  induction xs generalizing a with
  | nil => simp
  | cons y ys ih => exact le_trans (le_max_left a y) (ih (max a y))

lemma mem_le_foldl_max : ∀ (xs : List Int) (a x : Int), x ∈ xs → x ≤ xs.foldl max a := by
  intro xs
  induction xs with
  | nil => intro a x hx; cases hx
  | cons y ys ih =>
    intro a x hx
    rcases List.mem_cons.mp hx with h | h
    · subst h
      exact le_trans (le_max_right a x) (init_le_foldl_max ys (max a x))
    · exact ih (max a y) x h

lemma le_listMax (l : List Int) (x : Int) (hx : x ∈ l) : x ≤ listMax l := by
  match l with
  | [] => cases hx
  | y :: ys =>
    rcases List.mem_cons.mp hx with h | h
    · subst h; exact init_le_foldl_max ys x
    · exact mem_le_foldl_max ys y x h

lemma mem_anos_disponibles {df : List Row} {r : Row} (hr : r ∈ df) :
    r.«AÑO_ADJUDICACION» ∈ «años_disponibles» df :=
  (List.perm_insertionSort _ _).mem_iff.mpr
    (List.mem_dedup.mpr (List.mem_map_of_mem _ hr))

lemma mem_regiones_disponibles {df : List Row} {r : Row} {s : String}
    (hr : r ∈ df) (hs : r.REGION = some s) : s ∈ regiones_disponibles df :=
  (List.perm_insertionSort _ _).mem_iff.mpr
    (List.mem_dedup.mpr (List.mem_filterMap.mpr ⟨r, hr, hs⟩))

lemma mem_sectores_disponibles {df : List Row} {r : Row} {s : String}
    (hr : r ∈ df) (hs : r.SECTOR_ECONOMICO = some s) : s ∈ sectores_disponibles df :=
  (List.perm_insertionSort _ _).mem_iff.mpr
    (List.mem_dedup.mpr (List.mem_filterMap.mpr ⟨r, hr, hs⟩))

/-- A cell whose stripped form is a nonempty digit string coerces to the
decimal value of those digits. -/
lemma coerceCurrency_digits (s : String) (hne : stripNonNumeric s.data ≠ [])
    (hd : ∀ c ∈ stripNonNumeric s.data, c.isDigit = true) :
    coerceCurrency s = some ((natFromDigits (stripNonNumeric s.data) : ℕ) : ℚ) := by
  have hnodot : ∀ c ∈ stripNonNumeric s.data, (c != '.') = true := by
    intro c hc
    have hdig := hd c hc
    simp only [bne_iff_ne, ne_eq]
    rintro rfl
    exact absurd hdig (by decide)
  unfold coerceCurrency parseStripped
  rw [if_pos]
  · rw [List.takeWhile_eq_self_iff.mpr hnodot, List.dropWhile_eq_nil_iff.mpr hnodot]
    simp [natFromDigits]
  · refine ⟨fun c hc => Or.inl (hd c hc), ?_, ?_⟩
    · obtain ⟨c, hc⟩ := List.exists_mem_of_ne_nil _ hne
      exact ⟨c, hc, hd c hc⟩
    · have hnot : '.' ∉ stripNonNumeric s.data := fun h => by simpa using hnodot '.' h
      simp [List.count_eq_zero.mpr hnot]

lemma sum_filterMap_getD (f : Row → Option ℚ) :
    ∀ df : List Row, (df.filterMap f).sum = (df.map fun r => (f r).getD 0).sum := by
  intro df
  induction df with
  | nil => rfl
  | cons r rs ih =>
    cases h : f r with
    | none => simp [List.filterMap_cons, h, ih]
    | some q => simp [List.filterMap_cons, h, ih]

/-! ### Claim theorems -/

/-- C1 (counterexample): the documented dot-separated currency string
`"$12.345.678"` does not coerce to `12345678.0`; the regex keeps the dots, so
the stripped string `"12.345.678"` is unparsable and the coercion yields
`NaN`. -/
theorem c1_claim_counterexample :
    coerceCurrency "$12.345.678" = none ∧
      coerceCurrency "$12.345.678" ≠ some ((12345678 : ℕ) : ℚ) := by
  constructor
  · decide
  · decide

/-- C1 (amended): the coercion strips every character that is not a digit or
a dot, so dots — the documented thousands separators — survive the strip.
A string whose stripped form still has two or more dots coerces to `NaN`,
while a currency string with no dot at all (symbol followed by digits) parses
to the decimal value of its digits. -/
theorem c1_currency_coercion_amended :
    (∀ s : String, 2 ≤ (stripNonNumeric s.data).count '.' → coerceCurrency s = none) ∧
    (∀ ds : List Char, ds ≠ [] → (∀ c ∈ ds, c.isDigit = true) →
      coerceCurrency (String.mk ('$' :: ds)) = some ((natFromDigits ds : ℕ) : ℚ)) := by
  constructor
  · intro s h
    unfold coerceCurrency parseStripped
    rw [if_neg]
    rintro ⟨-, -, hle⟩
    omega
  · intro ds hne hd
    have hcons : stripNonNumeric (String.mk ('$' :: ds)).data = stripNonNumeric ds := rfl
    have hself : stripNonNumeric ds = ds :=
      List.filter_eq_self.mpr (fun c hc => by simp [hd c hc])
    have hstrip : stripNonNumeric (String.mk ('$' :: ds)).data = ds := hcons.trans hself
    have h := coerceCurrency_digits (String.mk ('$' :: ds)) (by rw [hstrip]; exact hne)
      (by rw [hstrip]; exact hd)
    rwa [hstrip] at h

/-- C1 (witness): the two branches of the amended statement at the concrete
inputs `"$12.345.678"` and `"$12345678"`. -/
theorem c1_currency_coercion_amended_witness :
    coerceCurrency "$12.345.678" = none ∧
      coerceCurrency "$12345678" = some ((12345678 : ℕ) : ℚ) := by
  constructor
  · exact c1_currency_coercion_amended.1 "$12.345.678" (by decide)
  · have h := c1_currency_coercion_amended.2
      ['1', '2', '3', '4', '5', '6', '7', '8'] (by decide) (by decide)
    rw [show natFromDigits ['1', '2', '3', '4', '5', '6', '7', '8'] = 12345678 from by decide] at h
    exact h

/-- C3 (code evaluated at the failing input): header normalization keeps
punctuation.  `" Region."` is trimmed, space-replaced and upper-cased to
`"REGION."`, while `"Region"` maps to `"REGION"`: two raw headers differing
only in punctuation land on different canonical names, contrary to the
stated contract (and to the comment on line 30 of `leyid.py`, which announces
names without special characters). -/
theorem c3_header_normalization_keeps_punctuation :
    normalizeHeader " Region." = "REGION." ∧ normalizeHeader "Region" = "REGION" ∧
      normalizeHeader " Region." ≠ normalizeHeader "Region" := by
  refine ⟨by decide, by decide, by decide⟩

/-- C4: the Filter Engine returns exactly the rows whose year lies in the
inclusive range and whose region and sector pass the membership tests; the
example row with year 2019, region Metropolitana, sector TIC is kept under
the filter year 2018–2020 / Metropolitana / TIC and dropped once the year
range moves to 2020–2022. -/
theorem c4_filter_membership :
    (∀ (df : List Row) (c : FilterCriteria) (r : Row),
        r ∈ df_filtrado df c ↔
          r ∈ df ∧ c.lo ≤ r.«AÑO_ADJUDICACION» ∧ r.«AÑO_ADJUDICACION» ≤ c.hi ∧
            isin r.REGION c.regiones = true ∧ isin r.SECTOR_ECONOMICO c.sectores = true) ∧
    ({ «AÑO_ADJUDICACION» := 2019, REGION := some "Metropolitana",
       SECTOR_ECONOMICO := some "TIC", FINANCIAMIENTO_INNOVA := none,
       APROBADO_PRIVADO := none } : Row) ∈
      df_filtrado
        [{ «AÑO_ADJUDICACION» := 2019, REGION := some "Metropolitana",
           SECTOR_ECONOMICO := some "TIC", FINANCIAMIENTO_INNOVA := none,
           APROBADO_PRIVADO := none }]
        { lo := 2018, hi := 2020, regiones := ["Metropolitana"], sectores := ["TIC"] } ∧
    ({ «AÑO_ADJUDICACION» := 2019, REGION := some "Metropolitana",
       SECTOR_ECONOMICO := some "TIC", FINANCIAMIENTO_INNOVA := none,
       APROBADO_PRIVADO := none } : Row) ∉
      df_filtrado
        [{ «AÑO_ADJUDICACION» := 2019, REGION := some "Metropolitana",
           SECTOR_ECONOMICO := some "TIC", FINANCIAMIENTO_INNOVA := none,
           APROBADO_PRIVADO := none }]
        { lo := 2020, hi := 2022, regiones := ["Metropolitana"], sectores := ["TIC"] } := by
  refine ⟨?_, by decide, by decide⟩
  intro df c r
  simp only [df_filtrado, List.mem_filter, Bool.and_eq_true, decide_eq_true_iff]
  tauto

/-- C5: an unparsable currency cell such as `"N/D"` coerces to null, and the
column-level coercion is a total function producing one (possibly null) value
per input cell, so no per-value failure can abort the load. -/
theorem c5_unparsable_coerces_to_null :
    coerceCurrency "N/D" = none ∧
      ∀ vs : List String, (cleanFloatColumn vs).length = vs.length := by
  refine ⟨by decide, fun vs => ?_⟩
  simp [cleanFloatColumn]

/-- C2 (counterexample): with the slider at the full observed year range and
both multiselects at their full option lists, a table whose single row has a
null region loses that row — `dropna()` excludes the null from the option
list and `isin` never matches a null cell — so the filtered row count drops
from 1 to 0. -/
theorem c2_full_filter_counterexample :
    (df_filtrado
        [{ «AÑO_ADJUDICACION» := 2020, REGION := none,
           SECTOR_ECONOMICO := some "TIC", FINANCIAMIENTO_INNOVA := none,
           APROBADO_PRIVADO := none }]
        (fullCriteria
          [{ «AÑO_ADJUDICACION» := 2020, REGION := none,
             SECTOR_ECONOMICO := some "TIC", FINANCIAMIENTO_INNOVA := none,
             APROBADO_PRIVADO := none }])).length ≠
      ([{ «AÑO_ADJUDICACION» := 2020, REGION := none,
          SECTOR_ECONOMICO := some "TIC", FINANCIAMIENTO_INNOVA := none,
          APROBADO_PRIVADO := none }] : List Row).length := by
  decide

/-- C2 (amended): for a table in which every row has a non-null region and a
non-null sector, filtering by the full observed year range together with the
full region and sector option lists keeps every row, so the filtered view has
the same row count as the table. -/
theorem c2_full_filter_amended (df : List Row)
    (hreg : ∀ r ∈ df, (Row.REGION r).isSome = true)
    (hsec : ∀ r ∈ df, (Row.SECTOR_ECONOMICO r).isSome = true) :
    (df_filtrado df (fullCriteria df)).length = df.length := by
  have hall : df_filtrado df (fullCriteria df) = df := by
    apply List.filter_eq_self.mpr
    intro r hr
    simp only [fullCriteria, Bool.and_eq_true, decide_eq_true_iff]
    refine ⟨⟨⟨?_, ?_⟩, ?_⟩, ?_⟩
    · exact listMin_le _ _ (mem_anos_disponibles hr)
    · exact le_listMax _ _ (mem_anos_disponibles hr)
    · obtain ⟨s, hs⟩ := Option.isSome_iff_exists.mp (hreg r hr)
      rw [hs]
      simpa [isin] using mem_regiones_disponibles hr hs
    · obtain ⟨s, hs⟩ := Option.isSome_iff_exists.mp (hsec r hr)
      rw [hs]
      simpa [isin] using mem_sectores_disponibles hr hs
  rw [hall]

/-- C2 (witness): the amended statement at a one-row table whose region and
sector are both non-null. -/
theorem c2_full_filter_amended_witness :
    (df_filtrado
        [{ «AÑO_ADJUDICACION» := 2019, REGION := some "Metropolitana",
           SECTOR_ECONOMICO := some "TIC", FINANCIAMIENTO_INNOVA := none,
           APROBADO_PRIVADO := none }]
        (fullCriteria
          [{ «AÑO_ADJUDICACION» := 2019, REGION := some "Metropolitana",
             SECTOR_ECONOMICO := some "TIC", FINANCIAMIENTO_INNOVA := none,
             APROBADO_PRIVADO := none }])).length = 1 := by
  have h := c2_full_filter_amended
    [{ «AÑO_ADJUDICACION» := 2019, REGION := some "Metropolitana",
       SECTOR_ECONOMICO := some "TIC", FINANCIAMIENTO_INNOVA := none,
       APROBADO_PRIVADO := none }] (by decide) (by decide)
  simpa using h

/-- C6: whenever the filter step produces an empty frame, the pass ends in
the warning outcome — no metrics, charts, table or export are rendered — and
the loaded table comes out of the pass unchanged, ready for a new filter
selection. -/
theorem c6_empty_filter_warns (df : List Row) (c : FilterCriteria)
    (h : df_filtrado df c = []) : runPass df c = (df, PassOutcome.warnEmpty) := by
  simp [runPass, h]

/-- C6 (witness): a year range lying outside the only observed year empties
the filtered frame and triggers the warning outcome. -/
theorem c6_empty_filter_warns_witness :
    runPass
        [{ «AÑO_ADJUDICACION» := 2019, REGION := some "Metropolitana",
           SECTOR_ECONOMICO := some "TIC", FINANCIAMIENTO_INNOVA := none,
           APROBADO_PRIVADO := none }]
        { lo := 2020, hi := 2022, regiones := ["Metropolitana"], sectores := ["TIC"] } =
      ([{ «AÑO_ADJUDICACION» := 2019, REGION := some "Metropolitana",
          SECTOR_ECONOMICO := some "TIC", FINANCIAMIENTO_INNOVA := none,
          APROBADO_PRIVADO := none }], PassOutcome.warnEmpty) :=
  c6_empty_filter_warns _ _ (by decide)

/-- C7: each aggregate sum over a filtered table equals the sum of the
per-row cell values with every null cell contributing 0 — each row counted
exactly once. -/
theorem c7_aggregator_sum (df : List Row) :
    inversion_innova df = (df.map fun r => (Row.FINANCIAMIENTO_INNOVA r).getD 0).sum ∧
      inversion_privada df = (df.map fun r => (Row.APROBADO_PRIVADO r).getD 0).sum :=
  ⟨sum_filterMap_getD _ df, sum_filterMap_getD _ df⟩

/-- C8: the filter step leaves the session state — the loaded table, every
row and every cell of it — exactly as it was, and each row of the derived
view is one of the source rows, unmodified. -/
theorem c8_filter_frame (st : AppState) (c : FilterCriteria) :
    (filterStep st c).1 = st ∧
      ∀ i : Fin (filterStep st c).2.length, (filterStep st c).2.get i ∈ st.df := by
  refine ⟨rfl, fun i => ?_⟩
  exact List.mem_of_mem_filter ((filterStep st c).2.get_mem i.1 i.2)

/-- C9: every non-null value a currency-like column holds after coercion is
non-negative: the strip removes any minus sign before parsing, so only digits
and dots reach the parser. -/
theorem c9_currency_nonneg (s : String) (q : ℚ) (h : coerceCurrency s = some q) :
    0 ≤ q := by
  unfold coerceCurrency parseStripped at h
  split at h
  · simp only [Option.some.injEq] at h
    subst h
    positivity
  · cases h

/-- C9 (witness): the raw cell `"-100"` coerces to the non-negative value
100 — the minus sign is stripped before parsing. -/
theorem c9_currency_nonneg_witness :
    coerceCurrency "-100" = some ((100 : ℕ) : ℚ) ∧ (0 : ℚ) ≤ ((100 : ℕ) : ℚ) := by
  have h : coerceCurrency "-100" = some ((100 : ℕ) : ℚ) := by
    have hc := coerceCurrency_digits "-100" (by decide) (by decide)
    rw [show natFromDigits (stripNonNumeric "-100".data) = 100 from by decide] at hc
    exact hc
  exact ⟨h, c9_currency_nonneg "-100" _ h⟩

/-- C10: the filtered view is a subsequence of the source table — the rows it
keeps appear in the same relative order as in the source. -/
theorem c10_filter_order_preserving (df : List Row) (c : FilterCriteria) :
    (df_filtrado df c).Sublist df :=
  List.filter_sublist df

end Leyid
